import Mathlib

/-!
Verification development for the ROS2-style layered pub/sub DEVS simulator.

Shallow embedding of the Python sources:
the RMW middleware layer (src/rmw_layer.py), the RCL layer (src/rcl_layer.py),
the RCLCPP layer (src/rclcpp_layer.py), the timer subsystem (src/timer.py),
the size estimator (src/abstract_serialization.py) and the enhanced tracer
(src/tracing_fixes.py).

Machine integers do not overflow in any of the embedded code paths, so handles
and counters are modelled as Nat.  Wall-clock instants and QoS durations are
Python floats used only through arithmetic comparisons and unit conversions;
they are modelled as exact rationals, and the Python truncation int(x) is
modelled explicitly by truncToInt.  Python dicts keyed by handle or name are
modelled as association lists in insertion order, which is exactly the
iteration order Python guarantees.
-/

/-- A value stored in a trace-event field dict before formatting.  Handles are
pre-rendered by the Python code with an f-string (hex, uppercase), so they
arrive here already as strings. -/
inductive FieldV where
  | s (v : String)
  | n (v : Int)
  | q (v : ℚ)
deriving DecidableEq

/-- One record handed to trace_logger.log_event: an event kind plus the field
dict (src/tracing.py is out of scope; the record content is what the layers in
src/ pass in). -/
structure TraceEvent where
  kind : String
  fields : List (String × FieldV)
deriving DecidableEq

/-- Uppercase hex digit for a value below 16, as produced by the Python
format spec X. -/
def hexChar (n : ℕ) : Char :=
  if n = 0 then Char.ofNat 48 else if n = 1 then Char.ofNat 49
  else if n = 2 then Char.ofNat 50 else if n = 3 then Char.ofNat 51
  else if n = 4 then Char.ofNat 52 else if n = 5 then Char.ofNat 53
  else if n = 6 then Char.ofNat 54 else if n = 7 then Char.ofNat 55
  else if n = 8 then Char.ofNat 56 else if n = 9 then Char.ofNat 57
  else if n = 10 then Char.ofNat 65 else if n = 11 then Char.ofNat 66
  else if n = 12 then Char.ofNat 67 else if n = 13 then Char.ofNat 68
  else if n = 14 then Char.ofNat 69 else Char.ofNat 70

/-- Hex digit list of n, most significant first; fuel-indexed so the
definition is structural (fuel at least n suffices since n / 16 < n). -/
def hexDigitsF : ℕ → ℕ → List Char
  | 0, _ => []
  | _ + 1, 0 => []
  | fuel + 1, n + 1 =>
      hexDigitsF fuel ((n + 1) / 16) ++ [hexChar ((n + 1) % 16)]

/-- Rendering of a handle exactly as the Python f-string 0x followed by
uppercase hex digits. -/
def hexRender (n : ℕ) : String :=
  "0x" ++ String.mk (if n = 0 then [Char.ofNat 48] else hexDigitsF n n)

/-! ## QoS model

src/rmw_layer.py converts between two QoS representations: the inner RMW
profile (dataTypes.RMWQoSProfile, milliseconds with infinity) and the lower
DDS profile (policies.QoSProfile, nanoseconds with None as infinite). -/

/-- Modelled from the spec: dataTypes.py is not under src/.  The spec lists
reliability RELIABLE or BEST_EFFORT; the map keys in rmw_layer._to_dds_qos
show the enum value strings are the uppercase policy names. -/
inductive RMWReliabilityPolicy where
  | reliable
  | bestEffort
deriving DecidableEq

/-- Modelled from the spec: value string of the dataTypes reliability enum. -/
def RMWReliabilityPolicy.value : RMWReliabilityPolicy → String
  | .reliable => "RELIABLE"
  | .bestEffort => "BEST_EFFORT"

/-- Modelled from the spec: dataTypes durability enum, four policies with
uppercase value strings. -/
inductive RMWDurabilityPolicy where
  | volatile
  | transientLocal
  | transient
  | persistent
deriving DecidableEq

/-- Modelled from the spec: value string of the dataTypes durability enum. -/
def RMWDurabilityPolicy.value : RMWDurabilityPolicy → String
  | .volatile => "VOLATILE"
  | .transientLocal => "TRANSIENT_LOCAL"
  | .transient => "TRANSIENT"
  | .persistent => "PERSISTENT"

/-- Modelled from the spec: dataTypes history enum. -/
inductive RMWHistoryPolicy where
  | keepLast
  | keepAll
deriving DecidableEq

/-- Modelled from the spec: value string of the dataTypes history enum. -/
def RMWHistoryPolicy.value : RMWHistoryPolicy → String
  | .keepLast => "KEEP_LAST"
  | .keepAll => "KEEP_ALL"

/-- Modelled from the spec: policies.py is not under src/.  The map keys in
rmw_layer._coerce_to_rmw_qos show the DDS enum value strings are lowercase. -/
inductive DDSReliabilityKind where
  | reliable
  | bestEffort
deriving DecidableEq

/-- Modelled from the spec: value string of the policies reliability enum. -/
def DDSReliabilityKind.value : DDSReliabilityKind → String
  | .reliable => "reliable"
  | .bestEffort => "best_effort"

/-- Modelled from the spec: policies durability enum with lowercase values. -/
inductive DDSDurabilityKind where
  | volatile
  | transientLocal
  | transient
  | persistent
deriving DecidableEq

/-- Modelled from the spec: value string of the policies durability enum. -/
def DDSDurabilityKind.value : DDSDurabilityKind → String
  | .volatile => "volatile"
  | .transientLocal => "transient_local"
  | .transient => "transient"
  | .persistent => "persistent"

/-- Modelled from the spec: policies history enum with lowercase values. -/
inductive DDSHistoryKind where
  | keepLast
  | keepAll
deriving DecidableEq

/-- Modelled from the spec: value string of the policies history enum. -/
def DDSHistoryKind.value : DDSHistoryKind → String
  | .keepLast => "keep_last"
  | .keepAll => "keep_all"

/-- Inner-layer QoS profile (dataTypes.RMWQoSProfile): milliseconds with
infinity.  Python represents an infinite deadline as float inf, and
rmw_layer treats None the same way; both collapse to none here. -/
structure RMWQoSProfile where
  reliability : RMWReliabilityPolicy
  durability : RMWDurabilityPolicy
  history : RMWHistoryPolicy
  depth : ℕ
  deadlineMs : Option ℚ
  lifespanMs : Option ℚ
deriving DecidableEq

/-- Lower-layer QoS profile (policies.QoSProfile): nanoseconds with None as
infinite. -/
structure DDSQoSProfile where
  reliability : DDSReliabilityKind
  durability : DDSDurabilityKind
  history : DDSHistoryKind
  depth : ℕ
  deadline : Option ℤ
  lifespan : Option ℤ
  partition : List String
deriving DecidableEq

/-- Python int(x): truncation toward zero on a rational. -/
def truncToInt (q : ℚ) : ℤ := if 0 ≤ q then ⌊q⌋ else ⌈q⌉

/-- The rel_map dict lookup in rmw_layer._to_dds_qos, including the .get
default of DDSReliability.RELIABLE. -/
def relMapToDds (v : String) : DDSReliabilityKind :=
  if v = "RELIABLE" then .reliable
  else if v = "BEST_EFFORT" then .bestEffort
  else .reliable

/-- The dur_map dict lookup in rmw_layer._to_dds_qos with default VOLATILE. -/
def durMapToDds (v : String) : DDSDurabilityKind :=
  if v = "VOLATILE" then .volatile
  else if v = "TRANSIENT_LOCAL" then .transientLocal
  else if v = "TRANSIENT" then .transient
  else if v = "PERSISTENT" then .persistent
  else .volatile

/-- The hist_map dict lookup in rmw_layer._to_dds_qos with default
KEEP_LAST. -/
def histMapToDds (v : String) : DDSHistoryKind :=
  if v = "KEEP_LAST" then .keepLast
  else if v = "KEEP_ALL" then .keepAll
  else .keepLast

/-- RMWImplementation._to_dds_qos: enum mapping by value strings, ms
converted to ns where finite with Python int() truncation, None or inf
mapped to unset, empty partition. -/
def toDdsQos (p : RMWQoSProfile) : DDSQoSProfile :=
  { reliability := relMapToDds p.reliability.value
  , durability := durMapToDds p.durability.value
  , history := histMapToDds p.history.value
  , depth := p.depth
  , deadline := p.deadlineMs.map (fun q => truncToInt (q * 1000000))
  , lifespan := p.lifespanMs.map (fun q => truncToInt (q * 1000000))
  , partition := [] }

/-- The rel_map dict lookup in rmw_layer._coerce_to_rmw_qos with default
RELIABLE. -/
def relMapToRmw (v : String) : RMWReliabilityPolicy :=
  if v = "reliable" then .reliable
  else if v = "best_effort" then .bestEffort
  else .reliable

/-- The dur_map dict lookup in rmw_layer._coerce_to_rmw_qos with default
VOLATILE. -/
def durMapToRmw (v : String) : RMWDurabilityPolicy :=
  if v = "volatile" then .volatile
  else if v = "transient_local" then .transientLocal
  else if v = "transient" then .transient
  else if v = "persistent" then .persistent
  else .volatile

/-- The history_map dict lookup in rmw_layer._coerce_to_rmw_qos with default
KEEP_LAST. -/
def histMapToRmw (v : String) : RMWHistoryPolicy :=
  if v = "keep_last" then .keepLast
  else if v = "keep_all" then .keepAll
  else .keepLast

/-- RMWImplementation._coerce_to_rmw_qos, branch for a DDS profile: enum
mapping by lowercase value strings, ns divided by 1e6 back to ms, unset
becoming infinite (none of the Option encoding). -/
def coerceToRmwQos (q : DDSQoSProfile) : RMWQoSProfile :=
  { reliability := relMapToRmw q.reliability.value
  , durability := durMapToRmw q.durability.value
  , history := histMapToRmw q.history.value
  , depth := q.depth
  , deadlineMs := q.deadline.map (fun n => (n : ℚ) / 1000000)
  , lifespanMs := q.lifespan.map (fun n => (n : ℚ) / 1000000) }

/-- A finite millisecond duration is a whole number of nanoseconds. -/
def nsWhole : Option ℚ → Prop
  | none => True
  | some q => ∃ n : ℤ, q * 1000000 = (n : ℚ)

/-! ## Messages and RMW inbound delivery (src/rmw_layer.py) -/

/-- Message envelope as used by the embedded paths: id, topic and the
optional publisher QoS profile attached to the message. -/
structure Message where
  id : ℕ
  topic : String
  qosProfile : Option RMWQoSProfile
deriving DecidableEq

/-- RMW subscription record (rmw_layer.RMWSubscription).  The qos field is
always a profile here because _create_subscription stores the result of
_coerce_to_rmw_qos; hasCallback models whether op callback was provided. -/
structure RMWSubscriptionM where
  handle : ℕ
  topic : String
  qos : RMWQoSProfile
  nodeName : String
  hasCallback : Bool
deriving DecidableEq

/-- RMWImplementation._check_qos_delivery: reliability gate first, then
durability gate, else accept.  A message without a QoS profile is always
accepted. -/
def checkQosDelivery (msgQos : Option RMWQoSProfile) (subQos : RMWQoSProfile) :
    Bool × String :=
  match msgQos with
  | none => (true, "")
  | some mq =>
      if subQos.reliability = .reliable ∧ mq.reliability ≠ .reliable then
        (false, "reliability mismatch")
      else if subQos.durability = .transientLocal ∧ mq.durability = .volatile then
        (false, "durability mismatch")
      else
        (true, "")

/-- The rmw_take trace record emitted in _on_dds_data_available. -/
def rmwTakeEvent (msgId : ℕ) (topic : String) : TraceEvent :=
  ⟨"rmw_take", [("message_id", .n msgId), ("topic", .s topic)]⟩

/-- The rcl_take parity trace record emitted in _on_dds_data_available. -/
def rclTakeParityEvent (msgId : ℕ) (topic : String) : TraceEvent :=
  ⟨"rcl_take", [("message_id", .n msgId), ("topic", .s topic)]⟩

/-- Result of delivering one inbound message to one subscription. -/
structure DeliveryRecord where
  subHandle : ℕ
  events : List TraceEvent
  callbackInvoked : Bool
deriving DecidableEq

/-- RMWImplementation._on_dds_data_available: emits rmw_take, a first
rcl_take, invokes the user callback if present, emits a second rcl_take,
and forwards the message_delivery upward.  No QoS check happens here. -/
def onDdsDataAvailable (sub : RMWSubscriptionM) (msg : Message) :
    DeliveryRecord :=
  { subHandle := sub.handle
  , events :=
      [ rmwTakeEvent msg.id sub.topic
      , rclTakeParityEvent msg.id sub.topic
      , rclTakeParityEvent msg.id sub.topic ]
  , callbackInvoked := sub.hasCallback }

/-- RMWImplementation._handle_dds_data: for a participant-shaped inbound
dict (with topic and data keys), deliver to every subscription whose topic
matches, with no QoS compatibility check on this path. -/
def handleDdsData (subs : List RMWSubscriptionM) (topic : String)
    (dataMsg : Message) : List DeliveryRecord :=
  (subs.filter (fun s => s.topic = topic)).map
    (fun s => onDdsDataAvailable s dataMsg)

/-! ## RCL layer (src/rcl_layer.py) -/

/-- Association-list lookup mirroring a Python dict access in insertion
order. -/
def lookupA {α : Type} (xs : List (ℕ × α)) (k : ℕ) : Option α :=
  (xs.find? (fun p => p.1 = k)).map (fun p => p.2)

/-- RCL publisher record: PublisherHandle with its owning node handle id. -/
structure RCLPublisher where
  handleId : ℕ
  nodeHandleId : ℕ
  topic : String
deriving DecidableEq

/-- RCL subscription record: SubscriptionHandle with its owning node handle
id. -/
structure RCLSubscription where
  handleId : ℕ
  nodeHandleId : ℕ
  topic : String
deriving DecidableEq

/-- Per-node lifecycle controls as stored in state node_controls. -/
structure NodeControls where
  enablePublishers : Bool
  enableTimers : Bool
deriving DecidableEq

/-- The slice of RCLLayer.state the publish and control paths read.  The
node_controls key is absent from the state dict built in RCLLayer.init,
which the Option models: none means the key is missing. -/
structure RCLState where
  nodes : List (ℕ × String)
  publishers : List (ℕ × RCLPublisher)
  subscriptions : List (ℕ × RCLSubscription)
  nodeControls : Option (List (ℕ × NodeControls))
deriving DecidableEq

/-- The default controls dict used by _publish_message when a node has no
entry: publishers and timers enabled. -/
def defaultControls : NodeControls := ⟨true, true⟩

/-- The controls lookup in _publish_message:
state.get of node_controls with default empty dict, then .get of the node
handle with the enabled default. -/
def getControls (st : RCLState) (nodeId : ℕ) : NodeControls :=
  match st.nodeControls with
  | none => defaultControls
  | some ctrls => (lookupA ctrls nodeId).getD defaultControls

/-- The rcl_publish trace record emitted in _publish_message. -/
def rclPublishEvent (msgId pubHandle nodeHandle : ℕ) : TraceEvent :=
  ⟨"rcl_publish",
    [ ("message_id", .n msgId)
    , ("publisher_handle", .s (hexRender pubHandle))
    , ("node_handle", .s (hexRender nodeHandle)) ]⟩

/-- The rclcpp_take trace record emitted for each intra-process match in
_publish_message. -/
def rclcppTakeIntraEvent (msgId : ℕ) (topic : String) : TraceEvent :=
  ⟨"rclcpp_take",
    [ ("message_id", .n msgId)
    , ("topic", .s topic)
    , ("intra_process", .n 1) ]⟩

/-- Output of one _publish_message call: trace records, the single
message_delivery sent on rclcpp_data_out if any, and the message forwarded
on rmw_pub_out if any. -/
structure PublishOutput where
  events : List TraceEvent
  rclcppOut : Option (ℕ × Message)
  rmwOut : Option Message
deriving DecidableEq

/-- The matching scan inside _publish_message: subscriptions on the same
topic owned by the same node handle as the publisher, in table order. -/
def matchingColocated (st : RCLState) (pub : RCLPublisher) (topic : String) :
    List (ℕ × RCLSubscription) :=
  st.subscriptions.filter
    (fun s => s.2.topic = topic ∧ s.2.nodeHandleId = pub.nodeHandleId)

/-- RCLLayer._publish_message: unknown publisher handle returns empty output
before any trace; otherwise the message topic is overwritten with the
publisher topic and rcl_publish is logged; a disabled publisher then drops
the message with no further output and no dedicated event; otherwise every
co-located matching subscription logs an rclcpp_take record but only the
first match receives the message_delivery envelope, suppressing the RMW
forward; with no match the message goes to rmw_pub_out. -/
def publishMessage (st : RCLState) (pubHandle : ℕ) (msg : Message) :
    PublishOutput :=
  match lookupA st.publishers pubHandle with
  | none => ⟨[], none, none⟩
  | some pub =>
      let msg1 : Message := { msg with topic := pub.topic }
      let ev0 := rclPublishEvent msg1.id pubHandle pub.nodeHandleId
      if (getControls st pub.nodeHandleId).enablePublishers = false then
        ⟨[ev0], none, none⟩
      else
        let ms := matchingColocated st pub pub.topic
        let takeEvs := ms.map (fun _ => rclcppTakeIntraEvent msg1.id msg1.topic)
        match ms with
        | [] => ⟨[ev0], none, some msg1⟩
        | (h, _) :: _ => ⟨ev0 :: takeEvs, some (h, msg1), none⟩

/-- A lifecycle control command arriving on control_in. -/
structure ControlCmd where
  targetNode : String
  enablePub : Option Bool
  enableTim : Option Bool
deriving DecidableEq

/-- Store an updated controls entry back into the assoc list (dict item
assignment). -/
def setControls (xs : List (ℕ × NodeControls)) (k : ℕ) (v : NodeControls) :
    List (ℕ × NodeControls) :=
  match xs with
  | [] => [(k, v)]
  | (k0, v0) :: rest =>
      if k0 = k then (k, v) :: rest else (k0, v0) :: setControls rest k v

/-- The lifecycle-control branch of RCLLayer.extTransition: scan the nodes
dict for the first node named target_node; on a match the code evaluates
state of node_controls followed by setdefault, which raises KeyError when
the key is missing, since RCLLayer.init never creates it.  With the key
present the entry is updated in place honoring the optional flags. -/
def handleControl (st : RCLState) (c : ControlCmd) : Except String RCLState :=
  match st.nodes.find? (fun p => p.2 = c.targetNode) with
  | none => .ok st
  | some (h, _) =>
      match st.nodeControls with
      | none => .error "KeyError: node_controls"
      | some ctrls =>
          let cur := (lookupA ctrls h).getD defaultControls
          let upd : NodeControls :=
            { enablePublishers := c.enablePub.getD cur.enablePublishers
            , enableTimers := c.enableTim.getD cur.enableTimers }
          .ok { st with nodeControls := some (setControls ctrls h upd) }

/-! ## Handle counters (src/rcl_layer.py and src/rmw_layer.py) -/

/-- The shared _next_handle pattern of RCLLayer and RMWImplementation:
return the counter, then increment it.  Both layers start their counter at
1000. -/
def nextHandle (counter : ℕ) : ℕ × ℕ := (counter, counter + 1)

/-- The handle returned by the i-th call to _next_handle of a layer whose
counter currently holds start. -/
def handleAt (start : ℕ) : ℕ → ℕ
  | 0 => (nextHandle start).1
  | n + 1 => handleAt (nextHandle start).2 n

/-! ## Timers (src/timer.py and rcl_layer._create_timer) -/

/-- Timer state (timer.Timer): the clamped period and the last trigger
instant, both in seconds. -/
structure SimTimer where
  period : ℚ
  lastTrigger : ℚ
deriving DecidableEq

/-- Timer.init: the requested period is clamped to a minimum of 0.001
seconds and the last trigger time starts at the current instant. -/
def timerMk (p now : ℚ) : SimTimer := ⟨max (1 / 1000) p, now⟩

/-- Timer.is_ready: the current time has reached last trigger plus
period. -/
def timerIsReady (t : SimTimer) (now : ℚ) : Bool :=
  t.lastTrigger + t.period ≤ now

/-- Timer.trigger: the last trigger time is set to the current instant. -/
def timerTrigger (t : SimTimer) (now : ℚ) : SimTimer := ⟨t.period, now⟩

/-- One TimerManager.update visit of a single timer at a given instant:
an expired timer is triggered once, a non-expired timer is untouched; the
second component counts the firing. -/
def timerStep (t : SimTimer) (now : ℚ) : SimTimer × ℕ :=
  if timerIsReady t now then (timerTrigger t now, 1) else (t, 0)

/-- A sequence of TimerManager.update visits of one timer at the given
instants, returning the final timer state and the total number of
firings. -/
def timerRun (t : SimTimer) : List ℚ → SimTimer × ℕ
  | [] => (t, 0)
  | now :: rest =>
      let s := timerStep t now
      let r := timerRun s.1 rest
      (r.1, s.2 + r.2)

/-- rcl_layer._create_timer hands period_ns / 1e9 to TimerManager.add_timer,
which builds a Timer; the effective period in seconds is therefore the
clamped conversion. -/
def effectivePeriod (periodNs : ℤ) : ℚ :=
  (timerMk ((periodNs : ℚ) / 1000000000) 0).period

/-! ## RCLCPP layer (src/rclcpp_layer.py) -/

/-- Per-topic publisher record held in a node info dict: the qos passed and
the handle, None until publisher_created arrives. -/
structure RclcppPubInfo where
  handle : Option ℕ
deriving DecidableEq

/-- Node record of RCLCPPLayer.state: the node handle assigned by RCL (None
before node_created) and the per-topic publisher registry. -/
structure RclcppNodeInfo where
  handle : Option ℕ
  publishers : List (String × RclcppPubInfo)
deriving DecidableEq

/-- An operation sitting in a RCLCPP queue. -/
inductive RclcppOp where
  | createNode (nodeName : String)
  | createPublisher (nodeName topic : String)
  | createSubscription (nodeName topic : String)
  | other (tag : String)
deriving DecidableEq

/-- The slice of RCLCPPLayer.state the deferred-creation claim touches. -/
structure RclcppState where
  nodes : List (String × RclcppNodeInfo)
  pendingOps : List RclcppOp
  pendingPublishers : List RclcppOp
  pendingSubscriptions : List RclcppOp
deriving DecidableEq

/-- RCLCPPLayer.state as built in init: empty registries and queues. -/
def rclcppInitialState : RclcppState := ⟨[], [], [], []⟩

/-- Name-keyed assoc lookup for the rclcpp node dict. -/
def lookupS {α : Type} (xs : List (String × α)) (k : String) : Option α :=
  (xs.find? (fun p => p.1 = k)).map (fun p => p.2)

/-- Name-keyed assoc store for the rclcpp node dict. -/
def setS {α : Type} (xs : List (String × α)) (k : String) (v : α) :
    List (String × α) :=
  match xs with
  | [] => [(k, v)]
  | (k0, v0) :: rest =>
      if k0 = k then (k, v) :: rest else (k0, v0) :: setS rest k v

/-- The command _create_publisher forwards to RCL on rcl_cmd_out: the node
handle as currently known to rclcpp (None when the node has none yet) plus
the topic. -/
structure RclCreatePubCmd where
  nodeHandle : Option ℕ
  topic : String
deriving DecidableEq

/-- RCLCPPLayer._create_publisher: the node record is created on demand
(with handle None) if missing, the publisher is registered under its topic
with handle None, and the create_publisher command is forwarded to RCL
immediately carrying whatever node handle is currently known.  Neither
pending_publishers nor pending_subscriptions is touched: nothing is ever
deferred. -/
def rclcppCreatePublisher (st : RclcppState) (nodeName topic : String) :
    RclcppState × RclCreatePubCmd :=
  let nodeInfo := (lookupS st.nodes nodeName).getD ⟨none, []⟩
  let nodeInfo1 :=
    { nodeInfo with publishers := setS nodeInfo.publishers topic ⟨none⟩ }
  ( { st with nodes := setS st.nodes nodeName nodeInfo1 }
  , ⟨nodeInfo.handle, topic⟩ )

/-- The node_created branch of RCLCPPLayer._handle_rcl_data: store the node
handle, then append to pending_operations every deferred publisher and
subscription whose node matches, in arrival order, removing them from the
deferred queues. -/
def rclcppHandleNodeCreated (st : RclcppState) (nodeName : String)
    (nodeHandle : ℕ) : RclcppState :=
  match lookupS st.nodes nodeName with
  | none => st
  | some info =>
      let owned : RclcppOp → Bool := fun op =>
        match op with
        | .createPublisher n _ => n = nodeName
        | .createSubscription n _ => n = nodeName
        | _ => false
      let pubsFor := st.pendingPublishers.filter owned
      let subsFor := st.pendingSubscriptions.filter owned
      { st with
          nodes := setS st.nodes nodeName { info with handle := some nodeHandle }
        , pendingOps := st.pendingOps ++ pubsFor ++ subsFor
        , pendingPublishers := st.pendingPublishers.filter (fun op => !owned op)
        , pendingSubscriptions :=
            st.pendingSubscriptions.filter (fun op => !owned op) }

/-- RCLLayer._create_publisher, restricted to what decides the deferred
claim: a command whose node handle is None or unknown in the RCL node table
is discarded, leaving the publisher table unchanged; otherwise a handle is
drawn and the publisher stored. -/
def rclCreatePublisher (st : RCLState) (counter : ℕ)
    (cmd : RclCreatePubCmd) : RCLState × ℕ :=
  match cmd.nodeHandle with
  | none => (st, counter)
  | some nh =>
      match lookupA st.nodes nh with
      | none => (st, counter)
      | some _ =>
          let (h, counter1) := nextHandle counter
          ( { st with publishers := st.publishers ++ [(h, ⟨h, nh, cmd.topic⟩)] }
          , counter1 )

/-! ## Trace determinism inputs (src/rcl_layer.py RCLContext,
src/rmw_layer.py _generate_graph_event) -/

/-- The rcl_init trace record emitted by RCLLayer.outputFnc: its
context_handle field renders the handle drawn in RCLContext.init from
uuid.uuid4().int shifted right by 96 bits, an entropy source the simulation
seed does not control. -/
def rclInitEvent (contextHandle : ℕ) : TraceEvent :=
  ⟨"rcl_init",
    [ ("context_handle", .s (hexRender contextHandle))
    , ("version", .s "4.1.1") ]⟩

/-- The graph discovery dict built by RMWImplementation._generate_graph_event,
stamped with time.time() wall clock. -/
structure GraphEvent where
  gtype : String
  topic : String
  node : String
  timestamp : ℚ
deriving DecidableEq

/-- RMWImplementation._generate_graph_event as a function of the wall-clock
reading it embeds in the record. -/
def generateGraphEvent (eventType topic nodeName : String) (wallClock : ℚ) :
    GraphEvent :=
  ⟨eventType, topic, nodeName, wallClock⟩

/-! ## Payload size estimation (src/abstract_serialization.py) -/

/-- The logical shape of a payload as discriminated by the isinstance chain
of MessageSize.estimate_size.  A string is represented by its utf-8
encoding so that string length means encoded byte count. -/
inductive PData where
  | pnull
  | pbool (b : Bool)
  | pint (n : ℤ)
  | pfloat
  | pstr (utf8 : List ℕ)
  | pbytes (bs : List ℕ)
  | plist (items : List PData)
  | pdict (entries : List (PData × PData))
  | pobj (fieldVals : List PData)
  | punknown

mutual

/-- MessageSize.estimate_size: None costs 4, bool 1, ints 1, 2, 4 or 8 by
range, float 8, strings and bytes their length plus a 4-byte length count,
lists 4 plus the sum over items, dicts 4 plus the sum over keys and values
symmetrically, objects the sum over public fields plus 20, anything else
50. -/
def estimateSize : PData → ℕ
  | .pnull => 4
  | .pbool _ => 1
  | .pint n =>
      if -128 ≤ n ∧ n ≤ 127 then 1
      else if -32768 ≤ n ∧ n ≤ 32767 then 2
      else if -2147483648 ≤ n ∧ n ≤ 2147483647 then 4
      else 8
  | .pfloat => 8
  | .pstr u => u.length + 4
  | .pbytes b => b.length + 4
  | .plist items => 4 + estimateSizeList items
  | .pdict entries => 4 + estimateSizePairs entries
  | .pobj fieldVals => estimateSizeList fieldVals + 20
  | .punknown => 50

/-- Sum of estimate_size over the items of a sequence. -/
def estimateSizeList : List PData → ℕ
  | [] => 0
  | x :: xs => estimateSize x + estimateSizeList xs

/-- Sum of estimate_size over keys and values of a mapping. -/
def estimateSizePairs : List (PData × PData) → ℕ
  | [] => 0
  | (k, v) :: es => estimateSize k + estimateSize v + estimateSizePairs es

end

/-! ## Helper lemmas -/

theorem handleAt_eq (start n : ℕ) : handleAt start n = start + n := by
  induction n generalizing start with
  | zero => rfl
  | succ m ih =>
      show handleAt (start + 1) m = start + (m + 1)
      rw [ih]; omega

theorem truncToInt_intCast (n : ℤ) : truncToInt (n : ℚ) = n := by
  unfold truncToInt
  split <;> simp

theorem roundMs_of_nsWhole (d : Option ℚ) (h : nsWhole d) :
    (d.map (fun q => truncToInt (q * 1000000))).map
      (fun n => (n : ℚ) / 1000000) = d := by
  cases d with
  | none => rfl
  | some q =>
      obtain ⟨n, hn⟩ := h
      have h1 : truncToInt (q * 1000000) = n := by
        rw [hn, truncToInt_intCast]
      have h2 : (n : ℚ) / 1000000 = q := by
        rw [div_eq_iff (by norm_num : (1000000 : ℚ) ≠ 0)]
        exact hn.symm
      simp [h1, h2]

theorem timerStep_ready (t : SimTimer) (now : ℚ)
    (h : timerIsReady t now = true) :
    timerStep t now = (⟨t.period, now⟩, 1) := by
  unfold timerStep timerTrigger
  simp [h]

theorem timerStep_notReady (t : SimTimer) (now : ℚ)
    (h : timerIsReady t now = false) :
    timerStep t now = (t, 0) := by
  unfold timerStep
  simp [h]

theorem timerRun_cons (t : SimTimer) (now : ℚ) (rest : List ℚ) :
    timerRun t (now :: rest) =
      ((timerRun (timerStep t now).1 rest).1,
        (timerStep t now).2 + (timerRun (timerStep t now).1 rest).2) := rfl

theorem timerRun_last_le (t : SimTimer) (ts : List ℚ) (B : ℚ)
    (hts : ∀ x ∈ ts, x ≤ B) (ht : t.lastTrigger ≤ B) :
    (timerRun t ts).1.lastTrigger ≤ B := by
  induction ts generalizing t with
  | nil => exact ht
  | cons now rest ih =>
      rw [timerRun_cons]
      apply ih
      · intro x hx
        exact hts x (List.mem_cons_of_mem _ hx)
      · rcases h : timerIsReady t now with hf | htr
        · rw [timerStep_notReady t now h]
          exact ht
        · rw [timerStep_ready t now h]
          exact hts now (List.mem_cons_self _ _)

theorem timerRun_count_lb (t : SimTimer) (ts : List ℚ) :
    t.lastTrigger + ((timerRun t ts).2 : ℚ) * t.period ≤
        (timerRun t ts).1.lastTrigger
    ∨ ((timerRun t ts).2 = 0 ∧ (timerRun t ts).1 = t) := by
  induction ts generalizing t with
  | nil => exact Or.inr ⟨rfl, rfl⟩
  | cons now rest ih =>
      rw [timerRun_cons]
      rcases h : timerIsReady t now with hf | htr
      · rw [timerStep_notReady t now h]
        simpa using ih t
      · rw [timerStep_ready t now h]
        have hnow : t.lastTrigger + t.period ≤ now := by
          have := of_decide_eq_true h
          exact this
        left
        rcases ih ⟨t.period, now⟩ with h1 | ⟨hc, hfix⟩
        · simp only at h1 ⊢
          push_cast
          nlinarith [h1]
        · rw [hc, hfix]
          simp only
          push_cast
          linarith

theorem estimateSizeList_append (xs ys : List PData) :
    estimateSizeList (xs ++ ys) = estimateSizeList xs + estimateSizeList ys := by
  induction xs with
  | nil => simp [estimateSizeList]
  | cons x xs ih =>
      simp only [List.cons_append, estimateSizeList, List.append_eq, ih]
      omega

theorem estimateSizePairs_append (es fs : List (PData × PData)) :
    estimateSizePairs (es ++ fs) = estimateSizePairs es + estimateSizePairs fs := by
  induction es with
  | nil => simp [estimateSizePairs]
  | cons e es ih =>
      obtain ⟨k, v⟩ := e
      simp only [List.cons_append, estimateSizePairs, List.append_eq, ih]
      omega

theorem estimateSizeList_eq_sum (xs : List PData) :
    estimateSizeList xs = (xs.map estimateSize).sum := by
  induction xs with
  | nil => rfl
  | cons x xs ih => simp [estimateSizeList, ih]

theorem estimateSizePairs_eq_sum (es : List (PData × PData)) :
    estimateSizePairs es =
      (es.map (fun kv => estimateSize kv.1 + estimateSize kv.2)).sum := by
  induction es with
  | nil => rfl
  | cons e es ih =>
      obtain ⟨k, v⟩ := e
      simp [estimateSizePairs, ih]

/-! ## Claim theorems -/

/-- Claim C4: within a layer the handle generator is strictly monotone, so
two distinct calls to the _next_handle counter of rcl_layer or rmw_layer
return different integer handles and no handle is reused. -/
theorem spec_c4_handle_monotone (start i j : ℕ) (h : i < j) :
    handleAt start i < handleAt start j ∧ handleAt start i ≠ handleAt start j := by
  rw [handleAt_eq, handleAt_eq]
  omega

/-- Witness for C4 at the initial counter 1000 of both layers and the first
two calls. -/
theorem spec_c4_handle_monotone_witness :
    handleAt 1000 0 < handleAt 1000 1 ∧ handleAt 1000 0 ≠ handleAt 1000 1 :=
  spec_c4_handle_monotone 1000 0 1 (by decide)

/-- Claim C10: rcl_layer._create_timer converts period_ns to seconds and
timer.Timer clamps it to a minimum of 0.001 s, so the effective period is
max of 0.001 and the request, is never below one millisecond, and any
request below 1000000 ns (zero and negative included) yields exactly
0.001 s. -/
theorem spec_c10_timer_clamp (pns : ℤ) :
    effectivePeriod pns = max (1 / 1000) ((pns : ℚ) / 1000000000)
    ∧ (1 : ℚ) / 1000 ≤ effectivePeriod pns
    ∧ (pns < 1000000 → effectivePeriod pns = 1 / 1000) := by
  refine ⟨rfl, le_max_left _ _, fun h => ?_⟩
  show max ((1 : ℚ) / 1000) ((pns : ℚ) / 1000000000) = 1 / 1000
  rw [max_eq_left]
  rw [div_le_div_iff₀ (by norm_num) (by norm_num)]
  have h1 : (pns : ℚ) ≤ 1000000 := by exact_mod_cast h.le
  linarith

/-- Witness for C10 at a 5 ns timer request. -/
theorem spec_c10_timer_clamp_witness :
    effectivePeriod 5 = max (1 / 1000) (((5 : ℤ) : ℚ) / 1000000000)
    ∧ (1 : ℚ) / 1000 ≤ effectivePeriod 5
    ∧ effectivePeriod 5 = 1 / 1000 :=
  ⟨(spec_c10_timer_clamp 5).1, (spec_c10_timer_clamp 5).2.1,
    (spec_c10_timer_clamp 5).2.2 (by norm_num)⟩

/-- Claim C7: MessageSize.estimate_size is positive on every payload shape,
never decreases when a string, list or dict payload is extended with more
content, and follows the stated shape: strings cost their utf-8 length
plus a 4-byte count, sequences 4 plus the sum of element sizes, mappings 4
plus a sum symmetric over keys and values. -/
theorem spec_c7_estimate_size_monotone :
    (∀ d : PData, 0 < estimateSize d)
    ∧ (∀ s t : List ℕ, estimateSize (.pstr s) ≤ estimateSize (.pstr (s ++ t)))
    ∧ (∀ xs ys : List PData,
        estimateSize (.plist xs) ≤ estimateSize (.plist (xs ++ ys)))
    ∧ (∀ es fs : List (PData × PData),
        estimateSize (.pdict es) ≤ estimateSize (.pdict (es ++ fs)))
    ∧ (∀ s : List ℕ, estimateSize (.pstr s) = s.length + 4)
    ∧ (∀ xs : List PData,
        estimateSize (.plist xs) = 4 + (xs.map estimateSize).sum)
    ∧ (∀ es : List (PData × PData),
        estimateSize (.pdict es) =
          4 + (es.map (fun kv => estimateSize kv.1 + estimateSize kv.2)).sum) := by
  refine ⟨?_, ?_, ?_, ?_, ?_, ?_, ?_⟩
  · intro d
    cases d with
    | pint n =>
        simp only [estimateSize]
        split_ifs <;> norm_num
    | pnull => simp [estimateSize]
    | pbool b => simp [estimateSize]
    | pfloat => simp [estimateSize]
    | pstr u => simp [estimateSize]
    | pbytes b => simp [estimateSize]
    | plist items => simp [estimateSize]
    | pdict entries => simp [estimateSize]
    | pobj fieldVals => simp [estimateSize]
    | punknown => simp [estimateSize]
  · intro s t
    simp [estimateSize]
  · intro xs ys
    simp only [estimateSize, estimateSizeList_append]
    omega
  · intro es fs
    simp only [estimateSize, estimateSizePairs_append]
    omega
  · intro s
    simp [estimateSize]
  · intro xs
    simp [estimateSize, estimateSizeList_eq_sum]
  · intro es
    simp [estimateSize, estimateSizePairs_eq_sum]

/-- Claim C9 evidence: the rcl_init trace record renders a context handle
drawn from uuid.uuid4() and the graph discovery record embeds a time.time()
reading, so the emitted records are not a function of the simulation inputs
and seed alone: two runs differing only in those entropy sources produce
different records. -/
theorem spec_c9_trace_depends_on_entropy :
    rclInitEvent 1 ≠ rclInitEvent 2
    ∧ generateGraphEvent "publisher_created" "/t" "N" 1
        ≠ generateGraphEvent "publisher_created" "/t" "N" 2 := by
  constructor
  · decide
  · decide

/-- Claim C1 evidence: on the participant-shaped inbound path of
rmw_layer._handle_dds_data a BEST_EFFORT-published message reaching a
RELIABLE subscription is delivered and the user callback is invoked, with
no qos_incompatible record, even though _check_qos_delivery would have
rejected the pair with reason reliability mismatch: the gate is only
consulted on the response-shaped path of _handle_dds_response. -/
theorem spec_c1_qos_gate_bypassed :
    checkQosDelivery (some ⟨.bestEffort, .volatile, .keepLast, 10, none, none⟩)
        ⟨.reliable, .volatile, .keepLast, 10, none, none⟩ =
      (false, "reliability mismatch")
    ∧ ((handleDdsData
          [⟨3001, "/t", ⟨.reliable, .volatile, .keepLast, 10, none, none⟩, "N", true⟩]
          "/t"
          ⟨7, "/t", some ⟨.bestEffort, .volatile, .keepLast, 10, none, none⟩⟩).map
        DeliveryRecord.callbackInvoked) = [true]
    ∧ ((handleDdsData
          [⟨3001, "/t", ⟨.reliable, .volatile, .keepLast, 10, none, none⟩, "N", true⟩]
          "/t"
          ⟨7, "/t", some ⟨.bestEffort, .volatile, .keepLast, 10, none, none⟩⟩).map
        (fun r => r.events.map TraceEvent.kind)) =
      [["rmw_take", "rcl_take", "rcl_take"]] := by
  refine ⟨rfl, ?_, ?_⟩ <;> rfl

/-- Claim C2 evidence: a publish on a node with two co-located matching
subscriptions scans both (emitting an rclcpp_take record for each) but
emits exactly one message_delivery envelope, to the first match only, and
suppresses the middleware forward; the second matching subscription
receives nothing. -/
theorem spec_c2_intra_first_match_only :
    ((matchingColocated
        ⟨[(100, "N")], [(500, ⟨500, 100, "/t"⟩)],
          [(2001, ⟨2001, 100, "/t"⟩), (2002, ⟨2002, 100, "/t"⟩)], none⟩
        ⟨500, 100, "/t"⟩ "/t").map (fun s => s.1)) = [2001, 2002]
    ∧ (publishMessage
        ⟨[(100, "N")], [(500, ⟨500, 100, "/t"⟩)],
          [(2001, ⟨2001, 100, "/t"⟩), (2002, ⟨2002, 100, "/t"⟩)], none⟩
        500 ⟨7, "", none⟩).rclcppOut = some (2001, ⟨7, "/t", none⟩)
    ∧ (publishMessage
        ⟨[(100, "N")], [(500, ⟨500, 100, "/t"⟩)],
          [(2001, ⟨2001, 100, "/t"⟩), (2002, ⟨2002, 100, "/t"⟩)], none⟩
        500 ⟨7, "", none⟩).rmwOut = none
    ∧ ((publishMessage
        ⟨[(100, "N")], [(500, ⟨500, 100, "/t"⟩)],
          [(2001, ⟨2001, 100, "/t"⟩), (2002, ⟨2002, 100, "/t"⟩)], none⟩
        500 ⟨7, "", none⟩).events.map TraceEvent.kind) =
      ["rcl_publish", "rclcpp_take", "rclcpp_take"] := by
  refine ⟨rfl, rfl, rfl, rfl⟩

/-- Claim C3 evidence: the state dict built by RCLLayer.init has no
node_controls key, so the first lifecycle command naming an existing node
raises KeyError inside extTransition; and on a state where controls do mark
a node with publishers disabled, _publish_message drops the publish with no
output beyond the already-logged rcl_publish record and emits no
publisher_disabled event. -/
theorem spec_c3_lifecycle_keyerror_and_silent_drop :
    handleControl ⟨[(100, "N")], [(500, ⟨500, 100, "/t"⟩)], [], none⟩
        ⟨"N", some false, none⟩ = .error "KeyError: node_controls"
    ∧ (publishMessage
        ⟨[(100, "N")], [(500, ⟨500, 100, "/t"⟩)], [],
          some [(100, ⟨false, true⟩)]⟩ 500 ⟨9, "", none⟩).rclcppOut = none
    ∧ (publishMessage
        ⟨[(100, "N")], [(500, ⟨500, 100, "/t"⟩)], [],
          some [(100, ⟨false, true⟩)]⟩ 500 ⟨9, "", none⟩).rmwOut = none
    ∧ ((publishMessage
        ⟨[(100, "N")], [(500, ⟨500, 100, "/t"⟩)], [],
          some [(100, ⟨false, true⟩)]⟩ 500 ⟨9, "", none⟩).events.map
        TraceEvent.kind) = ["rcl_publish"] := by
  refine ⟨rfl, rfl, rfl, rfl⟩

/-- Claim C8 evidence: a create_publisher arriving before its node exists is
processed immediately by rclcpp (never placed in the deferred queues, which
no code path populates), forwarded to RCL with node handle None, and then
discarded by rcl_layer._create_publisher because None is not in the node
table, so the final state lacks the publisher entirely. -/
theorem spec_c8_create_publisher_not_deferred :
    (rclcppCreatePublisher rclcppInitialState "X" "/q").1.pendingPublishers = []
    ∧ (rclcppCreatePublisher rclcppInitialState "X" "/q").2 = ⟨none, "/q"⟩
    ∧ (rclCreatePublisher ⟨[], [], [], none⟩ 1000
        (rclcppCreatePublisher rclcppInitialState "X" "/q").2).1.publishers = []
    ∧ (∀ st : RclcppState, ∀ n t : String,
        (rclcppCreatePublisher st n t).1.pendingPublishers = st.pendingPublishers
        ∧ (rclcppCreatePublisher st n t).1.pendingSubscriptions =
            st.pendingSubscriptions) := by
  exact ⟨rfl, rfl, rfl, fun st n t => ⟨rfl, rfl⟩⟩

/-- Claim C6 counterexample: a profile whose finite deadline is not a whole
number of nanoseconds (here 1e-7 ms, a tenth of a nanosecond) does not
survive the inner-to-lower-to-inner coercion: int() truncation in
_to_dds_qos collapses it to 0 ns and _coerce_to_rmw_qos returns 0 ms. -/
theorem spec_c6_roundtrip_counterexample :
    coerceToRmwQos (toDdsQos
        ⟨.reliable, .volatile, .keepLast, 10, some (1 / 10000000), none⟩) ≠
      ⟨.reliable, .volatile, .keepLast, 10, some (1 / 10000000), none⟩
    ∧ (coerceToRmwQos (toDdsQos
        ⟨.reliable, .volatile, .keepLast, 10, some (1 / 10000000), none⟩)).deadlineMs =
      some 0 := by
  have h1 : truncToInt ((1 / 10000000 : ℚ) * 1000000) = 0 := by
    unfold truncToInt
    rw [if_pos (by norm_num)]
    have h0 : ((1 / 10000000 : ℚ) * 1000000) = 1 / 10 := by norm_num
    rw [h0]
    rw [Int.floor_eq_zero_iff]
    constructor <;> norm_num
  have h2 : (coerceToRmwQos (toDdsQos
      ⟨.reliable, .volatile, .keepLast, 10, some (1 / 10000000), none⟩)).deadlineMs =
      some 0 := by
    simp only [toDdsQos, coerceToRmwQos, Option.map_some', h1]
    norm_num
  refine ⟨?_, h2⟩
  intro heq
  have h3 := congrArg RMWQoSProfile.deadlineMs heq
  rw [h2] at h3
  have h4 : (0 : ℚ) = 1 / 10000000 := Option.some.inj h3
  norm_num at h4

/-- Claim C6 as amended: for every inner-layer profile whose finite deadline
and lifespan are whole numbers of nanoseconds, coercing to the DDS
representation and back is the identity, with infinite durations
represented as unset below and restored above. -/
theorem spec_c6_roundtrip_ns_whole (p : RMWQoSProfile)
    (hd : nsWhole p.deadlineMs) (hl : nsWhole p.lifespanMs) :
    coerceToRmwQos (toDdsQos p) = p := by
  obtain ⟨rel, dur, hist, depth, dl, ls⟩ := p
  have hdl := roundMs_of_nsWhole dl hd
  have hls := roundMs_of_nsWhole ls hl
  have hrel : relMapToRmw (relMapToDds rel.value).value = rel := by
    cases rel <;> rfl
  have hdur : durMapToRmw (durMapToDds dur.value).value = dur := by
    cases dur <;> rfl
  have hhist : histMapToRmw (histMapToDds hist.value).value = hist := by
    cases hist <;> rfl
  calc coerceToRmwQos (toDdsQos ⟨rel, dur, hist, depth, dl, ls⟩)
      = ⟨relMapToRmw (relMapToDds rel.value).value,
          durMapToRmw (durMapToDds dur.value).value,
          histMapToRmw (histMapToDds hist.value).value,
          depth,
          (dl.map (fun q => truncToInt (q * 1000000))).map
            (fun n => (n : ℚ) / 1000000),
          (ls.map (fun q => truncToInt (q * 1000000))).map
            (fun n => (n : ℚ) / 1000000)⟩ := rfl
    _ = ⟨rel, dur, hist, depth, dl, ls⟩ := by
        rw [hrel, hdur, hhist, hdl, hls]

/-- Witness for C6 at a profile with a 2.5 ms deadline (2500000 ns) and an
infinite lifespan. -/
theorem spec_c6_roundtrip_ns_whole_witness :
    coerceToRmwQos (toDdsQos
        ⟨.bestEffort, .transientLocal, .keepAll, 5, some (5 / 2), none⟩) =
      ⟨.bestEffort, .transientLocal, .keepAll, 5, some (5 / 2), none⟩ := by
  apply spec_c6_roundtrip_ns_whole
  · show ∃ n : ℤ, (5 / 2 : ℚ) * 1000000 = (n : ℚ)
    exact ⟨2500000, by norm_num⟩
  · show True
    trivial

/-- Claim C5: firing a ready timer advances its fire time to the greater of
now and last fire plus period (Timer.trigger sets it to now, which equals
that maximum whenever Timer.is_ready held), one update pass fires a timer
at most once however many periods elapsed, and over any run of update
instants within a window of length D a timer of period T fires at most
ceiling of D over T plus one times. -/
theorem spec_c5_timer_no_accumulation (T c D : ℚ) (ts : List ℚ)
    (hT : 0 < T) (hD : 0 ≤ D) (hts : ∀ x ∈ ts, x ≤ c + D) :
    ((((timerRun ⟨T, c⟩ ts).2 : ℕ) : ℚ) * T ≤ D)
    ∧ (((timerRun ⟨T, c⟩ ts).2 : ℕ) : ℤ) ≤ ⌈D / T⌉ + 1
    ∧ (∀ t : SimTimer, ∀ now : ℚ, timerIsReady t now = true →
        timerStep t now = (⟨t.period, max now (t.lastTrigger + t.period)⟩, 1))
    ∧ (∀ t : SimTimer, ∀ now : ℚ, (timerStep t now).2 ≤ 1) := by
  have hcount : (((timerRun ⟨T, c⟩ ts).2 : ℕ) : ℚ) * T ≤ D := by
    rcases timerRun_count_lb ⟨T, c⟩ ts with h1 | ⟨h0, _⟩
    · have hlast : (timerRun ⟨T, c⟩ ts).1.lastTrigger ≤ c + D :=
        timerRun_last_le ⟨T, c⟩ ts (c + D) hts (by linarith)
      simp only at h1
      linarith
    · rw [h0]
      simpa using hD
  refine ⟨hcount, ?_, ?_, ?_⟩
  · have h2 : (((timerRun ⟨T, c⟩ ts).2 : ℕ) : ℚ) ≤ D / T := by
      rw [le_div_iff₀ hT]
      exact hcount
    have h3 : (((timerRun ⟨T, c⟩ ts).2 : ℕ) : ℚ) ≤ (⌈D / T⌉ : ℚ) :=
      le_trans h2 (Int.le_ceil _)
    have h4 : (((timerRun ⟨T, c⟩ ts).2 : ℕ) : ℤ) ≤ ⌈D / T⌉ := by
      exact_mod_cast h3
    linarith
  · intro t now h
    have hnow : t.lastTrigger + t.period ≤ now := of_decide_eq_true h
    rw [timerStep_ready t now h, max_eq_left hnow]
  · intro t now
    unfold timerStep
    split <;> simp

/-- Witness for C5: a period-1 timer created at time 0, updated at instants
1, 2 and 2.5 inside a window of length 2.5, fires twice, within the bound
of ceiling 2.5 plus one; the step at instant 1 shows the max-advance shape
and fires once. -/
theorem spec_c5_timer_no_accumulation_witness :
    ((((timerRun ⟨1, 0⟩ [1, 2, 5 / 2]).2 : ℕ) : ℚ) * 1 ≤ 5 / 2)
    ∧ (((timerRun ⟨1, 0⟩ [1, 2, 5 / 2]).2 : ℕ) : ℤ) ≤ ⌈(5 / 2 : ℚ) / 1⌉ + 1
    ∧ timerStep ⟨1, 0⟩ 1 =
        (⟨(1 : ℚ), max (1 : ℚ) ((0 : ℚ) + 1)⟩, 1)
    ∧ (timerStep ⟨1, 0⟩ 1).2 ≤ 1 := by
  have h := spec_c5_timer_no_accumulation 1 0 (5 / 2) [1, 2, 5 / 2]
    (by norm_num) (by norm_num)
    (by intro x hx; fin_cases hx <;> norm_num)
  have hr : timerIsReady ⟨1, 0⟩ 1 = true := by
    simp only [timerIsReady, decide_eq_true_eq]
    norm_num
  exact ⟨h.1, h.2.1, h.2.2.1 ⟨1, 0⟩ 1 hr, h.2.2.2 ⟨1, 0⟩ 1⟩
